import Mathlib

/-!
Shallow embedding of the OAuth2 token-introspection authenticator
(`pipeline/authn/authenticator_oauth2_introspection.go`) and proofs of the
specification claims about it.

External collaborators (the configuration provider, the bearer-token
extractor, the scope-strategy registry, the HTTP stack and the remote
introspection endpoint) are modelled at their interface boundary: the
values they produce are passed to the embedded functions as parameters.
-/

deriving instance DecidableEq for Except

namespace OAuth2Introspection

/-- JSON-style values stored in `Extra` maps (`map[string]interface{}` in the
source). Only scalar payloads occur in the properties under study. -/
inductive JsonValue where
  | str (s : String)
  | num (n : Int)
  | boolean (b : Bool)
  | null
deriving DecidableEq, Repr

/-- Association-list model of a Go string-keyed map: first binding of a key
wins on lookup. -/
def lookupKey {α : Type} : List (String × α) → String → Option α
  | [], _ => none
  | (k', v) :: rest, k => if k' = k then some v else lookupKey rest k

/-- Association-list model of a Go map write: replaces the existing binding of
the key or appends a new one. -/
def setKey {α : Type} : List (String × α) → String → α → List (String × α)
  | [], k, v => [(k, v)]
  | (k', v') :: rest, k, v =>
      if k' = k then (k, v) :: rest else (k', v') :: setKey rest k v

/-- Model of `AuthenticationSession` (declared in this repository's `pipeline/authn`
package, outside `src/`): per the spec's data model it carries the resolved
`Subject` identity and the `Extra` claims mapping. -/
structure AuthenticationSession where
  subject : String
  extra : List (String × JsonValue)
deriving DecidableEq, Repr

/-- Model of `helper.BearerTokenLocation` (outside `src/`): per the spec, a
configurable request location — header, query parameter, or cookie. -/
inductive BearerTokenLocation where
  | header (name : String)
  | queryParameter (name : String)
  | cookie (name : String)
deriving DecidableEq, Repr

/-- Embeds `AuthenticatorOAuth2IntrospectionPreAuthConfiguration`. -/
structure AuthenticatorOAuth2IntrospectionPreAuthConfiguration where
  enabled : Bool
  clientID : String
  clientSecret : String
  scope : List String
  tokenURL : String
deriving DecidableEq, Repr

/-- Embeds `AuthenticatorOAuth2IntrospectionRetryConfiguration`: `timeout` is the
`max_delay` duration string, `maxWait` the `give_up_after` duration string. -/
structure AuthenticatorOAuth2IntrospectionRetryConfiguration where
  timeout : String
  maxWait : String
deriving DecidableEq, Repr

/-- Embeds `AuthenticatorOAuth2IntrospectionConfiguration`. -/
structure AuthenticatorOAuth2IntrospectionConfiguration where
  scopes : List String
  audience : List String
  issuers : List String
  preAuth : Option AuthenticatorOAuth2IntrospectionPreAuthConfiguration
  scopeStrategy : String
  introspectionURL : String
  bearerTokenLocation : Option BearerTokenLocation
  introspectionRequestHeaders : List (String × String)
  retry : Option AuthenticatorOAuth2IntrospectionRetryConfiguration
deriving DecidableEq, Repr

/-- Embeds `AuthenticatorOAuth2IntrospectionResult`: the decoded wire response of the
introspection endpoint. -/
structure AuthenticatorOAuth2IntrospectionResult where
  active : Bool
  extra : List (String × JsonValue)
  subject : String
  username : String
  audience : List String
  tokenType : String
  issuer : String
  clientID : String
  scope : String
deriving DecidableEq, Repr

/-- The error taxonomy of the source: `notResponsible` is the sentinel
`ErrAuthenticatorNotResponsible`, `notEnabled` is `ErrAuthenticatorNotEnabled`,
`misconfigured` wraps a configuration decode error, `unauthorized` and
`forbidden` are `helper.ErrUnauthorized` / `helper.ErrForbidden` with their
reason strings, and `generic` is a bare wrapped error carrying no
classification (`errors.WithStack(err)` / `errors.Errorf`). -/
inductive AuthError where
  | notResponsible
  | notEnabled
  | misconfigured (detail : String)
  | unauthorized (reason : String)
  | forbidden (reason : String)
  | generic (detail : String)
deriving DecidableEq, Repr

/-- The resilient HTTP client stored on the authenticator: either the fixed
small-latency-tolerance client built at construction time, or the configurable
one built during `Config` when pre-authorization is enabled, carrying the
per-attempt timeout and maximum wait (nanoseconds) and the client-credentials
configuration that backs its transport. -/
inductive ResilientClient where
  | latencyToleranceSmall
  | latencyToleranceConfigurable (timeout maxWait : Int)
      (creds : AuthenticatorOAuth2IntrospectionPreAuthConfiguration)
deriving DecidableEq, Repr

/-- Embeds `AuthenticatorOAuth2Introspection`: the shared authenticator instance.
The configuration provider `c` is modelled by passing its outputs as
parameters; the mutable `client` field is carried explicitly. -/
structure AuthenticatorOAuth2Introspection where
  client : ResilientClient
deriving DecidableEq, Repr

/-- Embeds `NewAuthenticatorOAuth2Introspection`: fresh instance with the small
latency-tolerance resilient client. -/
def NewAuthenticatorOAuth2Introspection : AuthenticatorOAuth2Introspection :=
  { client := .latencyToleranceSmall }

/-- Embeds `GetID`. -/
def GetID : String := "oauth2_introspection"

/-- Go's `time.Millisecond` in nanoseconds. -/
def millisecond : Int := 1000000

/-- Nanoseconds per duration unit, as in Go's `time` package
(the `µs`/`μs` spellings of microseconds are omitted). -/
def unitNanos : String → Option Int
  | "ns" => some 1
  | "us" => some 1000
  | "ms" => some 1000000
  | "s" => some 1000000000
  | "m" => some 60000000000
  | "h" => some 3600000000000
  | _ => none

/-- Decimal digit run to a natural number. -/
def digitsToNat (ds : List Char) : Nat :=
  ds.foldl (fun acc c => acc * 10 + (c.toNat - 48)) 0

/-- Fuel-indexed worker for `parseDuration`: repeatedly consumes a non-empty
digit run followed by a recognized unit suffix. -/
def parseDurationAux : Nat → List Char → Option Int
  | _, [] => some 0
  | 0, _ :: _ => none
  | fuel + 1, c :: cs =>
    let digits := (c :: cs).takeWhile Char.isDigit
    let rest := (c :: cs).dropWhile Char.isDigit
    if digits.isEmpty then none
    else
      let unitChars := rest.takeWhile Char.isAlpha
      let rest' := rest.dropWhile Char.isAlpha
      match unitNanos (String.mk unitChars) with
      | none => none
      | some u =>
        match parseDurationAux fuel rest' with
        | none => none
        | some v => some ((digitsToNat digits : Int) * u + v)

/-- Modelled from the spec: Go's `time.ParseDuration` (standard library,
outside this repository), restricted to the unsigned, integer-valued duration
strings relevant here — one or more decimal-number/unit segments such as
`500ms` or `1s`; anything else fails. The result is in nanoseconds. -/
def parseDuration (s : String) : Except String Int :=
  if s.isEmpty then .error "time: invalid duration "
  else
    match parseDurationAux s.length s.data with
    | some v => .ok v
    | none => .error ("time: invalid duration " ++ s)

/-- The field-by-field retry defaulting performed by `Config` when
pre-authorization is enabled (source lines 176–185): a missing `retry` block
becomes `{500ms, 1s}`, and blank fields of a present block are filled with the
same defaults. -/
def retryDefaults :
    Option AuthenticatorOAuth2IntrospectionRetryConfiguration →
      AuthenticatorOAuth2IntrospectionRetryConfiguration
  | none => { timeout := "500ms", maxWait := "1s" }
  | some r =>
      { timeout := if r.timeout = "" then "500ms" else r.timeout,
        maxWait := if r.maxWait = "" then "1s" else r.maxWait }

/-- Modelled from the spec: the generic authenticator-configuration
decode/validate call (`configuration.Provider.AuthenticatorConfig`, in this
repository's `driver/configuration` package, not under `src/`). Decoding
rejects malformed input, and per the spec's data-model invariant, "if enabled,
token URL, client id, and client secret must be non-empty". We model the
post-decode validation of that invariant on a structured configuration
value. -/
def authenticatorConfigValidate (c : AuthenticatorOAuth2IntrospectionConfiguration) :
    Except String AuthenticatorOAuth2IntrospectionConfiguration :=
  match c.preAuth with
  | some p =>
      if p.enabled ∧ (p.tokenURL = "" ∨ p.clientID = "" ∨ p.clientSecret = "") then
        .error "pre_authorization requires token_url, client_id and client_secret"
      else .ok c
  | none => .ok c

/-- Embeds `Config` (source lines 169–212). `decoded` is the outcome of the external
`a.c.AuthenticatorConfig` decode call; a decode error is wrapped as
`misconfigured`. With pre-authorization enabled, the retry block is defaulted,
both duration strings are parsed (a parse failure is returned as an
unclassified `generic` error), the per-attempt timeout is computed as
`time.Millisecond * duration` exactly as in the source, and the shared
`client` field is overwritten with a newly built configurable resilient
client. -/
def Config (a : AuthenticatorOAuth2Introspection)
    (decoded : Except String AuthenticatorOAuth2IntrospectionConfiguration) :
    Except AuthError AuthenticatorOAuth2IntrospectionConfiguration ×
      AuthenticatorOAuth2Introspection :=
  match decoded with
  | .error e => (.error (.misconfigured e), a)
  | .ok c =>
    match c.preAuth with
    | none => (.ok c, a)
    | some p =>
      if p.enabled then
        let retry := retryDefaults c.retry
        match parseDuration retry.timeout with
        | .error e => (.error (.generic e), a)
        | .ok duration =>
          let timeout := millisecond * duration
          match parseDuration retry.maxWait with
          | .error e => (.error (.generic e), a)
          | .ok maxWait =>
            (.ok { c with retry := some retry },
             { client := .latencyToleranceConfigurable timeout maxWait p })
      else (.ok c, a)

/-- A scope strategy (`fosite.ScopeStrategy` behind
`configuration.Provider.ToScopeStrategy`): compares the granted-scope list
against one required scope. `Authenticate` receives `Option ScopeStrategy`,
`none` meaning the strategy resolved to disabled (`nil` in the source). -/
def ScopeStrategy : Type := List String → String → Bool

/-- The form body of the introspection request (source lines 88–93): always
the `token` field, plus `scope` joined from the required scopes exactly when
the scope strategy is disabled. -/
def introspectionBody (token : String) (scopes : List String)
    (ss : Option ScopeStrategy) : List (String × String) :=
  match ss with
  | none => [("token", token), ("scope", String.intercalate " " scopes)]
  | some _ => [("token", token)]

/-- The headers of the introspection request (source lines 99–103): all
configured extra headers are set, then `Content-Type` is forced to the
form-encoded value last. -/
def buildHeaders (extra : List (String × String)) : List (String × String) :=
  setKey (extra.foldl (fun acc kv => setKey acc kv.1 kv.2) [])
    "Content-Type" "application/x-www-form-urlencoded"

/-- The outbound introspection request: URL, form body and headers. -/
structure IntrospectRequest where
  url : String
  body : List (String × String)
  headers : List (String × String)

/-- The request `Authenticate` sends for a resolved configuration, token and
scope strategy. -/
def mkIntrospectRequest (cf : AuthenticatorOAuth2IntrospectionConfiguration)
    (token : String) (ss : Option ScopeStrategy) : IntrospectRequest :=
  { url := cf.introspectionURL,
    body := introspectionBody token cf.scopes ss,
    headers := buildHeaders cf.introspectionRequestHeaders }

/-- What the HTTP layer produced for the introspection call: a
connection-level error from `a.client.Do`, or a response with a status code
and a JSON-decode outcome for its body. -/
inductive WireResult where
  | netError (e : String)
  | reply (status : Nat) (payload : Except String AuthenticatorOAuth2IntrospectionResult)

/-- Modelled from the spec: `http.NewRequest` (standard library, outside this
repository) fails exactly when the URL fails to parse; we model parse failure
as the presence of an ASCII control character in the URL. -/
def newRequestSucceeds (u : String) : Bool :=
  u.data.all (fun c => decide (32 ≤ c.toNat))

/-- Model of `strings.Split(s, " ")` from Go's standard library: splits at every
single space, never dropping empty fields; the empty string yields `[""]`. -/
def splitOnSpaceAux : List Char → List Char → List String
  | [], acc => [String.mk acc.reverse]
  | c :: cs, acc =>
      if c = ' ' then String.mk acc.reverse :: splitOnSpaceAux cs []
      else splitOnSpaceAux cs (c :: acc)

/-- The space-split granted-scope list (`strings.Split(i.Scope, " ")`). -/
def splitScope (s : String) : List String := splitOnSpaceAux s.data []

/-- The request/transport stage of `Authenticate` (source lines 78–116):
configuration resolution, bearer-token presence check, request construction,
transport invocation, status check and body decoding. `wire` is the
environment's answer to the constructed request. -/
def introspect (a : AuthenticatorOAuth2Introspection)
    (decoded : Except String AuthenticatorOAuth2IntrospectionConfiguration)
    (ss : Option ScopeStrategy) (token : String)
    (wire : IntrospectRequest → WireResult) :
    Except AuthError
        (AuthenticatorOAuth2IntrospectionConfiguration ×
          AuthenticatorOAuth2IntrospectionResult) ×
      AuthenticatorOAuth2Introspection :=
  match Config a decoded with
  | (.error e, a') => (.error e, a')
  | (.ok cf, a') =>
    if token = "" then (.error .notResponsible, a')
    else if newRequestSucceeds cf.introspectionURL = false then
      (.error (.generic "net/url: invalid control character in URL"), a')
    else
      match wire (mkIntrospectRequest cf token ss) with
      | .netError e => (.error (.generic e), a')
      | .reply status payload =>
        if status ≠ 200 then
          (.error (.generic ("Introspection returned status code " ++
            toString status ++ " but expected 200")), a')
        else
          match payload with
          | .error e => (.error (.generic e), a')
          | .ok i => (.ok (cf, i), a')

/-- The audience loop of `Authenticate` (source lines 126–130): returns the
first configured target audience missing from the granted audience list. -/
def checkAudience : List String → List String → Option String
  | [], _ => none
  | aud :: rest, granted =>
      if granted.contains aud then checkAudience rest granted else some aud

/-- The client-side scope loop of `Authenticate` (source lines 138–144):
returns the first required scope the strategy rejects against the granted
scope list. -/
def checkScopes (f : ScopeStrategy) : List String → List String → Option String
  | [], _ => none
  | s :: rest, granted =>
      if f granted s then checkScopes f rest granted else some s

/-- The policy stage of `Authenticate` (source lines 118–144), in source
order: token-type check, active check, audience membership, issuer membership
(only when issuers are configured), then the client-side scope check (only
when a scope strategy is enabled). Returns the first failure, if any. -/
def evaluatePolicy (cf : AuthenticatorOAuth2IntrospectionConfiguration)
    (ss : Option ScopeStrategy)
    (i : AuthenticatorOAuth2IntrospectionResult) : Option AuthError :=
  if 0 < i.tokenType.length ∧ i.tokenType ≠ "access_token" then
    some (.forbidden ("Introspected token is not an access token but \"" ++
      i.tokenType ++ "\""))
  else if i.active = false then
    some (.unauthorized "Access token i says token is not active")
  else
    match checkAudience cf.audience i.audience with
    | some aud =>
        some (.forbidden ("Token audience is not intended for target audience " ++ aud))
    | none =>
      if 0 < cf.issuers.length ∧ cf.issuers.contains i.issuer = false then
        some (.forbidden "Token issuer does not match any trusted issuer")
      else
        match ss with
        | none => none
        | some f =>
          match checkScopes f cf.scopes (splitScope i.scope) with
          | none => none
          | some s => some (.forbidden ("Scope " ++ s ++ " was not granted"))

/-- The session-mutation tail of `Authenticate` (source lines 146–156): an
absent or empty extra-claims mapping is replaced by a fresh empty one, the
`username`, `client_id` and `scope` keys are written into it, and the session
takes the result's subject and that mapping. -/
def finalizeSession (i : AuthenticatorOAuth2IntrospectionResult)
    (session : AuthenticationSession) : AuthenticationSession :=
  let extra0 := if i.extra.length = 0 then ([] : List (String × JsonValue)) else i.extra
  let extra1 := setKey extra0 "username" (.str i.username)
  let extra2 := setKey extra1 "client_id" (.str i.clientID)
  let extra3 := setKey extra2 "scope" (.str i.scope)
  { session with subject := i.subject, extra := extra3 }

/-- Embeds `Authenticate` (source lines 76–158). The external inputs are the decode
outcome of the raw configuration, the resolved scope strategy, the extracted
bearer token (`""` meaning none was found at the configured location), and the
wire behaviour. Returns the outcome together with the session and the
authenticator instance after the call. -/
def Authenticate (a : AuthenticatorOAuth2Introspection)
    (decoded : Except String AuthenticatorOAuth2IntrospectionConfiguration)
    (ss : Option ScopeStrategy) (token : String)
    (wire : IntrospectRequest → WireResult)
    (session : AuthenticationSession) :
    Except AuthError Unit × AuthenticationSession × AuthenticatorOAuth2Introspection :=
  match introspect a decoded ss token wire with
  | (.error e, a') => (.error e, session, a')
  | (.ok (cf, i), a') =>
    match evaluatePolicy cf ss i with
    | some e => (.error e, session, a')
    | none => (.ok (), finalizeSession i session, a')

/-- Embeds `Validate` (source lines 160–167): the administrative enabled check comes
first and short-circuits; otherwise the outcome of `Config` decides. -/
def Validate (a : AuthenticatorOAuth2Introspection) (enabled : Bool)
    (decoded : Except String AuthenticatorOAuth2IntrospectionConfiguration) :
    Except AuthError Unit × AuthenticatorOAuth2Introspection :=
  if enabled = false then (.error .notEnabled, a)
  else
    match Config a decoded with
    | (.error e, a') => (.error e, a')
    | (.ok _, a') => (.ok (), a')

/-! Concrete sample values used to instantiate the general theorems. -/

/-- A minimal valid configuration: no pre-authorization, no policy lists. -/
def sampleCfg : AuthenticatorOAuth2IntrospectionConfiguration :=
  { scopes := [], audience := [], issuers := [], preAuth := none,
    scopeStrategy := "none",
    introspectionURL := "https://example.com/oauth2/introspect",
    bearerTokenLocation := some (.header "Authorization"),
    introspectionRequestHeaders := [], retry := none }

/-- A fully populated, enabled pre-authorization block. -/
def samplePreAuth : AuthenticatorOAuth2IntrospectionPreAuthConfiguration :=
  { enabled := true, clientID := "cid", clientSecret := "secret",
    scope := ["introspect"], tokenURL := "https://example.com/oauth2/token" }

/-- Pre-authorization enabled, no retry block configured. -/
def cfgPreAuthNoRetry : AuthenticatorOAuth2IntrospectionConfiguration :=
  { sampleCfg with preAuth := some samplePreAuth }

/-- Pre-authorization enabled with an unparsable retry base-delay string. -/
def cfgBadRetry : AuthenticatorOAuth2IntrospectionConfiguration :=
  { sampleCfg with
      preAuth := some samplePreAuth,
      retry := some { timeout := "banana", maxWait := "1s" } }

/-- Pre-authorization enabled but with a blank client id. -/
def cfgPreAuthNoClientID : AuthenticatorOAuth2IntrospectionConfiguration :=
  { sampleCfg with preAuth := some { samplePreAuth with clientID := "" } }

/-- Configuration demanding the scopes `read` and `write`. -/
def cfgReadWrite : AuthenticatorOAuth2IntrospectionConfiguration :=
  { sampleCfg with scopes := ["read", "write"], scopeStrategy := "exact" }

/-- An empty session, as the registry creates it per request. -/
def emptySession : AuthenticationSession := { subject := "", extra := [] }

/-- An inactive introspection response whose token type is not the
access-token type. -/
def inactiveRefreshResult : AuthenticatorOAuth2IntrospectionResult :=
  { active := false, extra := [], subject := "u1", username := "alice",
    audience := [], tokenType := "refresh_token", issuer := "", clientID := "c1",
    scope := "read" }

/-- An inactive introspection response with no token type. -/
def inactiveResult : AuthenticatorOAuth2IntrospectionResult :=
  { inactiveRefreshResult with tokenType := "" }

/-- An active response granting only the scope `read`, with a pre-existing
`username` entry in its extra claims to be overwritten. -/
def activeReadResult : AuthenticatorOAuth2IntrospectionResult :=
  { active := true, extra := [("username", .str "stale"), ("plan", .str "pro")],
    subject := "u1", username := "alice", audience := [], tokenType := "access_token",
    issuer := "", clientID := "c1", scope := "read" }

/-- The exact scope strategy: a required scope must be literally among the
granted ones. -/
def sampleStrategy : ScopeStrategy := fun granted s => granted.contains s

/-- A wire behaviour answering every request with status 200 and the given
decoded result. -/
def constWire (i : AuthenticatorOAuth2IntrospectionResult) :
    IntrospectRequest → WireResult :=
  fun _ => .reply 200 (.ok i)

/-! Outcome classifiers used to state claims about failure kinds. -/

/-- Whether a `Config` outcome is a failure of any kind. -/
def exceptConfigIsError :
    Except AuthError AuthenticatorOAuth2IntrospectionConfiguration → Bool
  | .error _ => true
  | .ok _ => false

/-- Whether a `Config` outcome is specifically a `Misconfigured` failure. -/
def exceptConfigIsMisconfigured :
    Except AuthError AuthenticatorOAuth2IntrospectionConfiguration → Bool
  | .error (.misconfigured _) => true
  | _ => false

/-- Whether an `Authenticate` outcome is a `Forbidden` failure. -/
def exceptUnitIsForbidden : Except AuthError Unit → Bool
  | .error (.forbidden _) => true
  | _ => false

/-- Whether an `Authenticate` outcome is an `Unauthorized` failure. -/
def exceptUnitIsUnauthorized : Except AuthError Unit → Bool
  | .error (.unauthorized _) => true
  | _ => false

/-! Shared helper lemmas. -/

/-- Writing a key and reading it back yields the written value. -/
theorem lookupKey_setKey_self {α : Type} (m : List (String × α)) (k : String) (v : α) :
    lookupKey (setKey m k v) k = some v := by
  induction m with
  | nil => simp [setKey, lookupKey]
  | cons hd tl ih =>
    obtain ⟨k', v'⟩ := hd
    by_cases h : k' = k
    · simp [setKey, lookupKey, h]
    · simp [setKey, lookupKey, h, ih]

/-- Writing one key leaves lookups of other keys unchanged. -/
theorem lookupKey_setKey_other {α : Type} (m : List (String × α)) (k k' : String)
    (v : α) (h : k ≠ k') :
    lookupKey (setKey m k v) k' = lookupKey m k' := by
  induction m with
  | nil => simp [setKey, lookupKey, h]
  | cons hd tl ih =>
    obtain ⟨k0, v0⟩ := hd
    by_cases h0 : k0 = k
    · simp [setKey, lookupKey, h0, h]
    · simp [setKey, lookupKey, h0, ih]

/-- If some required scope fails the strategy, the scope loop reports a
failing scope. -/
theorem checkScopes_isSome_of_fail (f : ScopeStrategy) (required granted : List String)
    (s : String) (hmem : s ∈ required) (hfail : f granted s = false) :
    (checkScopes f required granted).isSome = true := by
  induction required with
  | nil => cases hmem
  | cons hd tl ih =>
    by_cases hhd : f granted hd = true
    · cases hmem with
      | head => rw [hfail] at hhd; cases hhd
      | tail _ hmem' => simpa [checkScopes, hhd] using ih hmem'
    · simp [checkScopes, hhd]

/-- When configuration resolution succeeds, a token is present, the URL is
well formed and the endpoint answers 200 with a decodable body, the
request/transport stage hands the resolved configuration and decoded result
to the policy stage. -/
theorem introspect_reply_ok (a a' : AuthenticatorOAuth2Introspection)
    (decoded : Except String AuthenticatorOAuth2IntrospectionConfiguration)
    (cf : AuthenticatorOAuth2IntrospectionConfiguration)
    (ss : Option ScopeStrategy) (token : String)
    (wire : IntrospectRequest → WireResult)
    (i : AuthenticatorOAuth2IntrospectionResult)
    (hcfg : Config a decoded = (.ok cf, a'))
    (htok : ¬ token = "")
    (hurl : newRequestSucceeds cf.introspectionURL = true)
    (hwire : wire (mkIntrospectRequest cf token ss) = .reply 200 (.ok i)) :
    introspect a decoded ss token wire = (.ok (cf, i), a') := by
  unfold introspect
  simp [hcfg, htok, hurl, hwire]

/-- When the token-type, active, audience and issuer checks all pass, the
policy stage reduces to the client-side scope check. -/
theorem evaluatePolicy_scope_stage (cf : AuthenticatorOAuth2IntrospectionConfiguration)
    (ss : Option ScopeStrategy) (i : AuthenticatorOAuth2IntrospectionResult)
    (htype : i.tokenType.length = 0 ∨ i.tokenType = "access_token")
    (hactive : i.active = true)
    (haud : checkAudience cf.audience i.audience = none)
    (hiss : cf.issuers = [] ∨ cf.issuers.contains i.issuer = true) :
    evaluatePolicy cf ss i =
      match ss with
      | none => none
      | some f =>
        match checkScopes f cf.scopes (splitScope i.scope) with
        | none => none
        | some s => some (.forbidden ("Scope " ++ s ++ " was not granted")) := by
  have h1 : ¬ (0 < i.tokenType.length ∧ i.tokenType ≠ "access_token") := by
    rcases htype with h | h
    · intro hc; rw [h] at hc; exact absurd hc.1 (by simp)
    · intro hc; exact hc.2 h
  have h2 : ¬ (i.active = false) := by rw [hactive]; simp
  have h3 : ¬ (0 < cf.issuers.length ∧ cf.issuers.contains i.issuer = false) := by
    rcases hiss with h | h
    · intro hc; rw [h] at hc; exact absurd hc.1 (by simp)
    · intro hc; rw [h] at hc; exact absurd hc.2 (by simp)
  unfold evaluatePolicy
  rw [if_neg h1, if_neg h2, haud]
  rw [if_neg h3]

/-- Reduction lemma: `Authenticate` forwards a failure of the request/transport stage and
leaves the session untouched. -/
theorem authenticate_of_introspect_error
    (a a2 : AuthenticatorOAuth2Introspection)
    (decoded : Except String AuthenticatorOAuth2IntrospectionConfiguration)
    (ss : Option ScopeStrategy) (token : String)
    (wire : IntrospectRequest → WireResult)
    (session : AuthenticationSession) (e : AuthError)
    (h : introspect a decoded ss token wire = (.error e, a2)) :
    Authenticate a decoded ss token wire session = (.error e, session, a2) := by
  unfold Authenticate
  rw [h]

/-- Reduction lemma: `Authenticate` reduces to the policy stage when the request/transport
stage succeeds. -/
theorem authenticate_of_introspect_ok
    (a a2 : AuthenticatorOAuth2Introspection)
    (decoded : Except String AuthenticatorOAuth2IntrospectionConfiguration)
    (ss : Option ScopeStrategy) (token : String)
    (wire : IntrospectRequest → WireResult)
    (session : AuthenticationSession)
    (cf : AuthenticatorOAuth2IntrospectionConfiguration)
    (i : AuthenticatorOAuth2IntrospectionResult)
    (h : introspect a decoded ss token wire = (.ok (cf, i), a2)) :
    Authenticate a decoded ss token wire session =
      match evaluatePolicy cf ss i with
      | some e => (.error e, session, a2)
      | none => (.ok (), finalizeSession i session, a2) := by
  unfold Authenticate
  rw [h]

/-! Claim theorems. -/

/-- Claim C2: with pre-authorization enabled and no retry block, the source
defaults the duration strings to `500ms`/`1s` but then multiplies the parsed
base delay by `time.Millisecond` a second time, so the base per-attempt delay
handed to the resilient transport is 500000000000000 ns (500000 s), not the
500 ms (500000000 ns) the claim and the spec intend; the maximum total wait is
1 s as claimed. -/
theorem config_default_retry_base_delay_double_scaled :
    (Config NewAuthenticatorOAuth2Introspection (.ok cfgPreAuthNoRetry)).2.client
        = .latencyToleranceConfigurable 500000000000000 1000000000 samplePreAuth
      ∧ (500000000000000 : Int) ≠ 500000000 :=
  ⟨by decide, by decide⟩

/-- Claim C3: resolving a configuration with pre-authorization enabled
overwrites the shared authenticator instance's stored resilient client, so
`Config` does mutate shared authenticator state, contrary to the claim and to
the spec's concurrency requirement. -/
theorem config_mutates_shared_client :
    (Config NewAuthenticatorOAuth2Introspection (.ok cfgPreAuthNoRetry)).2
      ≠ NewAuthenticatorOAuth2Introspection := by decide

/-- Claim C4 (counterexample): with pre-authorization enabled and the retry
base-delay string `banana`, `Config` fails, but the failure is not classified
as a `Misconfigured` outcome — it is the bare duration-parse error. -/
theorem config_bad_duration_not_misconfigured :
    exceptConfigIsError
        (Config NewAuthenticatorOAuth2Introspection (.ok cfgBadRetry)).1 = true
      ∧ exceptConfigIsMisconfigured
          (Config NewAuthenticatorOAuth2Introspection (.ok cfgBadRetry)).1 = false :=
  ⟨by decide, by decide⟩

/-- Claim C4 (amended): for every configuration with pre-authorization enabled
whose defaulted retry base-delay or max-wait string does not parse as a valid
duration, `Config` fails, and the failure is the raw unclassified parse error,
not a `Misconfigured` outcome. -/
theorem config_unparsable_retry_duration_fails_unclassified
    (a : AuthenticatorOAuth2Introspection)
    (c : AuthenticatorOAuth2IntrospectionConfiguration)
    (p : AuthenticatorOAuth2IntrospectionPreAuthConfiguration)
    (hp : c.preAuth = some p) (he : p.enabled = true)
    (hbad : (parseDuration (retryDefaults c.retry).timeout).isOk = false
          ∨ (parseDuration (retryDefaults c.retry).maxWait).isOk = false) :
    exceptConfigIsError (Config a (.ok c)).1 = true
      ∧ exceptConfigIsMisconfigured (Config a (.ok c)).1 = false := by
  simp only [Config, hp, he, if_true]
  cases h1 : parseDuration (retryDefaults c.retry).timeout with
  | error e => simp [exceptConfigIsError, exceptConfigIsMisconfigured]
  | ok d =>
    cases h2 : parseDuration (retryDefaults c.retry).maxWait with
    | error e => simp [exceptConfigIsError, exceptConfigIsMisconfigured]
    | ok w =>
      rcases hbad with hb | hb
      · rw [h1] at hb; simp [Except.isOk, Except.toBool] at hb
      · rw [h2] at hb; simp [Except.isOk, Except.toBool] at hb

/-- Witness for C4 (amended) at the concrete configuration `cfgBadRetry`. -/
theorem config_unparsable_retry_duration_fails_unclassified_witness :
    exceptConfigIsError
        (Config NewAuthenticatorOAuth2Introspection (.ok cfgBadRetry)).1 = true
      ∧ exceptConfigIsMisconfigured
          (Config NewAuthenticatorOAuth2Introspection (.ok cfgBadRetry)).1 = false :=
  config_unparsable_retry_duration_fails_unclassified
    NewAuthenticatorOAuth2Introspection cfgBadRetry samplePreAuth
    rfl rfl (Or.inl (by decide))

/-- Claim C5: a configuration with pre-authorization enabled but a blank token
URL, client id or client secret is rejected by the (spec-modelled)
configuration validation, and `Config` surfaces that as a `Misconfigured`
failure. -/
theorem config_preauth_missing_credentials_misconfigured
    (a : AuthenticatorOAuth2Introspection)
    (c : AuthenticatorOAuth2IntrospectionConfiguration)
    (p : AuthenticatorOAuth2IntrospectionPreAuthConfiguration)
    (hp : c.preAuth = some p) (he : p.enabled = true)
    (hempty : p.tokenURL = "" ∨ p.clientID = "" ∨ p.clientSecret = "") :
    (Config a (authenticatorConfigValidate c)).1
      = .error (.misconfigured
          "pre_authorization requires token_url, client_id and client_secret") := by
  simp only [authenticatorConfigValidate, hp]
  rw [if_pos ⟨he, hempty⟩]
  rfl

/-- Witness for C5 at a concrete configuration with a blank client id. -/
theorem config_preauth_missing_credentials_misconfigured_witness :
    (Config NewAuthenticatorOAuth2Introspection
        (authenticatorConfigValidate cfgPreAuthNoClientID)).1
      = .error (.misconfigured
          "pre_authorization requires token_url, client_id and client_secret") :=
  config_preauth_missing_credentials_misconfigured
    NewAuthenticatorOAuth2Introspection cfgPreAuthNoClientID
    { samplePreAuth with clientID := "" }
    rfl rfl (Or.inr (Or.inl rfl))

/-- Claim C1 (counterexample): a response with `active=false` but
`token_type="refresh_token"` is rejected as `Forbidden` by the earlier
token-type check, not as `Unauthorized`, so the outcome is not independent of
the other response fields. -/
theorem authenticate_inactive_refresh_token_forbidden :
    (Authenticate NewAuthenticatorOAuth2Introspection (.ok sampleCfg) none "tok"
          (constWire inactiveRefreshResult) emptySession).1
        = .error (.forbidden
            "Introspected token is not an access token but \"refresh_token\"")
      ∧ exceptUnitIsUnauthorized
          (Authenticate NewAuthenticatorOAuth2Introspection (.ok sampleCfg) none "tok"
            (constWire inactiveRefreshResult) emptySession).1 = false :=
  ⟨by decide, by decide⟩

/-- Claim C1 (amended): for every introspection response whose decoded
`active` field is false and whose `token_type` is absent or equal to
`access_token`, `Authenticate` returns the `Unauthorized` failure, regardless
of the values of all other response fields (audience, issuer, scope, ...). -/
theorem authenticate_inactive_unauthorized
    (a a' : AuthenticatorOAuth2Introspection)
    (decoded : Except String AuthenticatorOAuth2IntrospectionConfiguration)
    (cf : AuthenticatorOAuth2IntrospectionConfiguration)
    (ss : Option ScopeStrategy) (token : String)
    (wire : IntrospectRequest → WireResult)
    (i : AuthenticatorOAuth2IntrospectionResult)
    (session : AuthenticationSession)
    (hcfg : Config a decoded = (.ok cf, a'))
    (htok : ¬ token = "")
    (hurl : newRequestSucceeds cf.introspectionURL = true)
    (hwire : wire (mkIntrospectRequest cf token ss) = .reply 200 (.ok i))
    (hactive : i.active = false)
    (htype : i.tokenType = "" ∨ i.tokenType = "access_token") :
    (Authenticate a decoded ss token wire session).1
      = .error (.unauthorized "Access token i says token is not active") := by
  have hi := introspect_reply_ok a a' decoded cf ss token wire i hcfg htok hurl hwire
  have h1 : ¬ (0 < i.tokenType.length ∧ i.tokenType ≠ "access_token") := by
    rcases htype with h | h
    · intro hc
      rw [h] at hc
      exact absurd hc.1 (by simp)
    · intro hc
      exact hc.2 h
  have hpol : evaluatePolicy cf ss i
      = some (.unauthorized "Access token i says token is not active") := by
    unfold evaluatePolicy
    rw [if_neg h1, if_pos hactive]
  simp only [Authenticate, hi, hpol]

/-- Witness for C1 (amended): a concrete inactive response with no token type
yields `Unauthorized`. -/
theorem authenticate_inactive_unauthorized_witness :
    (Authenticate NewAuthenticatorOAuth2Introspection (.ok sampleCfg) none "tok"
        (constWire inactiveResult) emptySession).1
      = .error (.unauthorized "Access token i says token is not active") :=
  authenticate_inactive_unauthorized
    NewAuthenticatorOAuth2Introspection NewAuthenticatorOAuth2Introspection
    (.ok sampleCfg) sampleCfg none "tok" (constWire inactiveResult)
    inactiveResult emptySession
    (by decide) (by decide) (by decide) rfl (by decide) (Or.inl rfl)

/-- Claim C6: when the scope strategy resolves to disabled, the introspection
request body carries a `scope` field with the space-joined required scopes and
no client-side scope check happens (a run passing the other policy checks
succeeds outright); when a strategy is enabled, no `scope` field is sent and
every required scope is checked client-side against the space-split granted
scope string, any failure yielding a `Forbidden` outcome. -/
theorem scope_strategy_roundtrip
    (a a' : AuthenticatorOAuth2Introspection)
    (decoded : Except String AuthenticatorOAuth2IntrospectionConfiguration)
    (cf : AuthenticatorOAuth2IntrospectionConfiguration)
    (ss : Option ScopeStrategy) (token : String)
    (wire : IntrospectRequest → WireResult)
    (i : AuthenticatorOAuth2IntrospectionResult)
    (session : AuthenticationSession)
    (hcfg : Config a decoded = (.ok cf, a'))
    (htok : ¬ token = "")
    (hurl : newRequestSucceeds cf.introspectionURL = true)
    (hwire : wire (mkIntrospectRequest cf token ss) = .reply 200 (.ok i))
    (htype : i.tokenType.length = 0 ∨ i.tokenType = "access_token")
    (hactive : i.active = true)
    (haud : checkAudience cf.audience i.audience = none)
    (hiss : cf.issuers = [] ∨ cf.issuers.contains i.issuer = true) :
    (lookupKey (introspectionBody token cf.scopes ss) "scope"
        = match ss with
          | none => some (String.intercalate " " cf.scopes)
          | some _ => none)
    ∧ (ss = none → (Authenticate a decoded ss token wire session).1 = .ok ())
    ∧ (∀ f s, ss = some f → s ∈ cf.scopes → f (splitScope i.scope) s = false →
        exceptUnitIsForbidden (Authenticate a decoded ss token wire session).1 = true) := by
  have hi := introspect_reply_ok a a' decoded cf ss token wire i hcfg htok hurl hwire
  have hpol := evaluatePolicy_scope_stage cf ss i htype hactive haud hiss
  refine ⟨?_, ?_, ?_⟩
  · cases ss with
    | none => simp [introspectionBody, lookupKey]
    | some f => simp [introspectionBody, lookupKey]
  · intro hss
    subst hss
    simp only [Authenticate, hi, hpol]
  · intro f s hss hmem hfail
    subst hss
    have hsome := checkScopes_isSome_of_fail f cf.scopes (splitScope i.scope) s hmem hfail
    simp only [Authenticate, hi, hpol]
    cases hcs : checkScopes f cf.scopes (splitScope i.scope) with
    | none => rw [hcs] at hsome; cases hsome
    | some s2 => simp [hcs, exceptUnitIsForbidden]

/-- Witness for C6: with the exact strategy enabled and a response granting
only `read` against required scopes `read` and `write`, the outcome is
`Forbidden`. -/
theorem scope_strategy_roundtrip_witness :
    exceptUnitIsForbidden
      (Authenticate NewAuthenticatorOAuth2Introspection (.ok cfgReadWrite)
        (some sampleStrategy) "tok" (constWire activeReadResult) emptySession).1 = true :=
  (scope_strategy_roundtrip
      NewAuthenticatorOAuth2Introspection NewAuthenticatorOAuth2Introspection
      (.ok cfgReadWrite) cfgReadWrite (some sampleStrategy) "tok"
      (constWire activeReadResult) activeReadResult emptySession
      (by decide) (by decide) (by decide) rfl (Or.inr rfl) rfl rfl
      (Or.inl rfl)).2.2
    sampleStrategy "write" rfl (by decide) (by decide)

/-- Claim C7: every successful run of `Authenticate` leaves the session with
`username`, `client_id` and `scope` entries holding the introspection result's
values (overwriting same-named keys from the endpoint's `ext` object, and
creating the mapping when the result had none), and with the result's subject. -/
theorem authenticate_success_sets_session
    (a a' : AuthenticatorOAuth2Introspection)
    (decoded : Except String AuthenticatorOAuth2IntrospectionConfiguration)
    (cf : AuthenticatorOAuth2IntrospectionConfiguration)
    (ss : Option ScopeStrategy) (token : String)
    (wire : IntrospectRequest → WireResult)
    (i : AuthenticatorOAuth2IntrospectionResult)
    (session : AuthenticationSession)
    (hcfg : Config a decoded = (.ok cf, a'))
    (htok : ¬ token = "")
    (hurl : newRequestSucceeds cf.introspectionURL = true)
    (hwire : wire (mkIntrospectRequest cf token ss) = .reply 200 (.ok i))
    (hok : (Authenticate a decoded ss token wire session).1 = .ok ()) :
    lookupKey (Authenticate a decoded ss token wire session).2.1.extra "username"
        = some (.str i.username)
    ∧ lookupKey (Authenticate a decoded ss token wire session).2.1.extra "client_id"
        = some (.str i.clientID)
    ∧ lookupKey (Authenticate a decoded ss token wire session).2.1.extra "scope"
        = some (.str i.scope)
    ∧ (Authenticate a decoded ss token wire session).2.1.subject = i.subject := by
  have hi := introspect_reply_ok a a' decoded cf ss token wire i hcfg htok hurl hwire
  have hsession : (Authenticate a decoded ss token wire session).2.1
      = finalizeSession i session := by
    simp only [Authenticate, hi] at hok ⊢
    cases hp : evaluatePolicy cf ss i with
    | some e => rw [hp] at hok; exact Except.noConfusion hok
    | none => rfl
  rw [hsession]
  simp only [finalizeSession]
  refine ⟨?_, ?_, ?_, by simp⟩
  · rw [lookupKey_setKey_other _ _ _ _ (by decide),
      lookupKey_setKey_other _ _ _ _ (by decide), lookupKey_setKey_self]
  · rw [lookupKey_setKey_other _ _ _ _ (by decide), lookupKey_setKey_self]
  · rw [lookupKey_setKey_self]

/-- Witness for C7: a concrete successful run writes `alice`, `c1` and `read`
into the session and sets the subject to `u1`, overwriting the stale
`username` entry the endpoint sent in `ext`. -/
theorem authenticate_success_sets_session_witness :
    lookupKey (Authenticate NewAuthenticatorOAuth2Introspection (.ok sampleCfg) none "tok"
          (constWire activeReadResult) emptySession).2.1.extra "username"
        = some (.str "alice")
    ∧ lookupKey (Authenticate NewAuthenticatorOAuth2Introspection (.ok sampleCfg) none "tok"
          (constWire activeReadResult) emptySession).2.1.extra "client_id"
        = some (.str "c1")
    ∧ lookupKey (Authenticate NewAuthenticatorOAuth2Introspection (.ok sampleCfg) none "tok"
          (constWire activeReadResult) emptySession).2.1.extra "scope"
        = some (.str "read")
    ∧ (Authenticate NewAuthenticatorOAuth2Introspection (.ok sampleCfg) none "tok"
          (constWire activeReadResult) emptySession).2.1.subject = "u1" :=
  authenticate_success_sets_session
    NewAuthenticatorOAuth2Introspection NewAuthenticatorOAuth2Introspection
    (.ok sampleCfg) sampleCfg none "tok" (constWire activeReadResult)
    activeReadResult emptySession
    (by decide) (by decide) (by decide) rfl (by decide)

/-- Claim C8: when the configuration resolves successfully but no bearer token
was found at the configured location, `Authenticate` returns exactly the
`NotResponsible` outcome — never a failure of any other kind. -/
theorem authenticate_no_token_not_responsible
    (a a' : AuthenticatorOAuth2Introspection)
    (decoded : Except String AuthenticatorOAuth2IntrospectionConfiguration)
    (cf : AuthenticatorOAuth2IntrospectionConfiguration)
    (ss : Option ScopeStrategy)
    (wire : IntrospectRequest → WireResult)
    (session : AuthenticationSession)
    (hcfg : Config a decoded = (.ok cf, a')) :
    (Authenticate a decoded ss "" wire session).1 = .error .notResponsible := by
  simp [Authenticate, introspect, hcfg]

/-- Witness for C8 at a concrete resolving configuration. -/
theorem authenticate_no_token_not_responsible_witness :
    (Authenticate NewAuthenticatorOAuth2Introspection (.ok sampleCfg) none ""
        (constWire activeReadResult) emptySession).1 = .error .notResponsible :=
  authenticate_no_token_not_responsible
    NewAuthenticatorOAuth2Introspection NewAuthenticatorOAuth2Introspection
    (.ok sampleCfg) sampleCfg none (constWire activeReadResult) emptySession
    (by decide)

/-- Claim C9: when the authenticator type is administratively disabled,
`Validate` returns the `NotEnabled` failure for every raw configuration,
whether or not it would decode or validate successfully. -/
theorem validate_disabled_returns_not_enabled
    (a : AuthenticatorOAuth2Introspection)
    (decoded : Except String AuthenticatorOAuth2IntrospectionConfiguration) :
    (Validate a false decoded).1 = .error .notEnabled := by
  simp [Validate]

/-- Claim C10: every run of `Authenticate` that does not return success leaves
the session exactly as it was on entry: no failure path touches
`session.Subject` or `session.Extra`. -/
theorem authenticate_failure_preserves_session
    (a : AuthenticatorOAuth2Introspection)
    (decoded : Except String AuthenticatorOAuth2IntrospectionConfiguration)
    (ss : Option ScopeStrategy) (token : String)
    (wire : IntrospectRequest → WireResult)
    (session : AuthenticationSession)
    (hfail : (Authenticate a decoded ss token wire session).1 ≠ .ok ()) :
    (Authenticate a decoded ss token wire session).2.1 = session := by
  rcases hi : introspect a decoded ss token wire with ⟨r, a2⟩
  cases r with
  | error e =>
    rw [authenticate_of_introspect_error a a2 decoded ss token wire session e hi]
  | ok pr =>
    obtain ⟨cf, i⟩ := pr
    rw [authenticate_of_introspect_ok a a2 decoded ss token wire session cf i hi]
      at hfail ⊢
    cases hp : evaluatePolicy cf ss i with
    | some e => rfl
    | none => rw [hp] at hfail; exact absurd rfl hfail

/-- Witness for C10: a failing run (inactive token) leaves the empty session
untouched. -/
theorem authenticate_failure_preserves_session_witness :
    (Authenticate NewAuthenticatorOAuth2Introspection (.ok sampleCfg) none "tok"
        (constWire inactiveResult) emptySession).2.1 = emptySession :=
  authenticate_failure_preserves_session
    NewAuthenticatorOAuth2Introspection (.ok sampleCfg) none "tok"
    (constWire inactiveResult) emptySession (by decide)

end OAuth2Introspection
